import Mathlib

/-!
# Verification of the TaskMaster ↔ Jira bidirectional synchronization engine

Shallow embedding of the sync engine found in the repository:
* `TaskMasterIntegrationHandler` (tag sync, task sync, reverse sync, lock
  table, tag classifier) and
* `JiraService` (field mappers, issue lookup/create/update).

JavaScript objects are modelled as Lean structures; fields that may be
absent (`undefined`) are `Option`s; JavaScript string truthiness
(`undefined` and `""` are falsy) is modelled by `truthyS`; the in-process
`Set` of lock keys is modelled as a `List String` with JS `Set.add` /
`Set.delete` semantics.  Fallible operations return `Except`.
-/

set_option autoImplicit false

namespace TaskMasterSync

/-- A TaskMaster task record.  Every field of the underlying JSON object may
be absent, so each is an `Option`; `tags` is `none` when the task carries no
tags collection at all (the JS code guards with `!task.tags` /
`Array.isArray`). -/
structure Task where
  id : String := ""
  title : Option String := none
  summary : Option String := none
  description : Option String := none
  details : Option String := none
  status : Option String := none
  priority : Option String := none
  ttype : Option String := none
  tags : Option (List String) := none
deriving Repr, DecidableEq

/-! ### JS string primitives

Modelled on the character list underlying a `String`, so that all
definitions reduce inside the kernel.  The tags, statuses and priorities
this engine manipulates are ASCII, where `Char.toLower`/`Char.toUpper`
agree with JS `toLowerCase`/`toUpperCase`. -/

/-- JS `String.prototype.startsWith`. -/
def strStartsWith (s pre : String) : Bool :=
  pre.data.isPrefixOf s.data

/-- JS `String.prototype.split(":")` (single-character separator). -/
def strSplitOnColon (s : String) : List String :=
  (s.data.splitOn ':').map (fun cs => ⟨cs⟩)

/-- JS `String.prototype.toLowerCase` (ASCII). -/
def strToLower (s : String) : String :=
  ⟨s.data.map Char.toLower⟩

/-- JS `String.prototype.toUpperCase` (ASCII). -/
def strToUpper (s : String) : String :=
  ⟨s.data.map Char.toUpper⟩

/-- Whether `sub` occurs as a contiguous run inside a character list. -/
def listContainsSub (sub : List Char) : List Char → Bool
  | [] => sub.isEmpty
  | c :: rest => sub.isPrefixOf (c :: rest) || listContainsSub sub rest

/-- JS `String.prototype.includes` (substring test). -/
def jsIncludes (s sub : String) : Bool :=
  listContainsSub sub.data s.data

/-- JS string truthiness for an optional string field: `undefined` and the
empty string are falsy. -/
def truthyS (o : Option String) : Bool :=
  o.getD "" != ""

/-- JS `a || b` on two possibly-absent string fields: yields `a` when `a` is
truthy, otherwise `b`. -/
def jsOr (a b : Option String) : Option String :=
  match a with
  | some s => if s = "" then b else some s
  | none => b

/-! ## Tag classifier (`shouldSyncTask`, `extractProjectKeyFromTask`,
`groupTasksByProject` in the handler) -/

/-- Whether a single tag makes a task syncable: prefix `cc-dev:`,
`atlassian:` or `jira:` (handler lines 342-346). -/
def syncableTag (tag : String) : Bool :=
  strStartsWith tag "cc-dev:" || strStartsWith tag "atlassian:" ||
    strStartsWith tag "jira:"

/-- `shouldSyncTask` (handler lines 338-347): false when there is no tags
collection, otherwise true iff some tag is syncable. -/
def shouldSyncTask (task : Task) : Bool :=
  match task.tags with
  | none => false
  | some l => l.any syncableTag

/-- `filterSyncableTasks` (handler lines 334-336). -/
def filterSyncableTasks (tasks : List Task) : List Task :=
  tasks.filter shouldSyncTask

/-- First-match scan of a tag list for a `cc-dev:` tag, yielding its second
colon-segment upper-cased (handler lines 366-373); `some "ADAPT"` when the
list is exhausted (line 373). -/
def projectKeyScan : List String → Option String
  | [] => some "ADAPT"
  | tag :: rest =>
    if strStartsWith tag "cc-dev:" then
      ((strSplitOnColon tag).get? 1).map strToUpper
    else
      projectKeyScan rest

/-- `extractProjectKeyFromTask` (handler lines 363-374): `none` (JS `null`)
when the task has no tags collection, otherwise the first-match scan. -/
def extractProjectKeyFromTask (task : Task) : Option String :=
  match task.tags with
  | none => none
  | some l => projectKeyScan l

/-- Append a task to the group keyed `k` (insertion-ordered association
list modelling the JS object used in `groupTasksByProject`). -/
def addToGroup (groups : List (String × List Task)) (k : String) (t : Task) :
    List (String × List Task) :=
  match groups with
  | [] => [(k, [t])]
  | (k', ts) :: rest =>
    if k' = k then (k', ts ++ [t]) :: rest else (k', ts) :: addToGroup rest k t

/-- One iteration of the `groupTasksByProject` loop (handler lines
352-358): tasks whose extracted key is JS-falsy (`null` or `""`) are
dropped by the `if (projectKey)` guard. -/
def groupStep (gs : List (String × List Task)) (t : Task) :
    List (String × List Task) :=
  match extractProjectKeyFromTask t with
  | some pk => if pk ≠ "" then addToGroup gs pk t else gs
  | none => gs

/-- `groupTasksByProject` (handler lines 349-361). -/
def groupTasksByProject (tasks : List Task) : List (String × List Task) :=
  tasks.foldl groupStep []

/-- Tasks registered under key `k` after grouping (reading the JS object). -/
def lookupGroup (groups : List (String × List Task)) (k : String) : List Task :=
  match groups.find? (fun g => g.1 == k) with
  | some g => g.2
  | none => []

/-! ## Field mappers (`JiraService` and handler enumeration tables) -/

/-- `mapJiraStatusToTaskStatus` (handler lines 399-408). -/
def mapJiraStatusToTaskStatus (jiraStatus : String) : String :=
  match jiraStatus with
  | "To Do" => "pending"
  | "In Progress" => "in_progress"
  | "Review" => "review"
  | "Done" => "completed"
  | "Closed" => "completed"
  | _ => "pending"

/-- `mapJiraPriorityToTaskPriority` (handler lines 410-419). -/
def mapJiraPriorityToTaskPriority (jiraPriority : String) : String :=
  match jiraPriority with
  | "Highest" => "highest"
  | "High" => "high"
  | "Medium" => "medium"
  | "Low" => "low"
  | "Lowest" => "lowest"
  | _ => "medium"

/-- `mapTaskStatusToJiraStatus` (jira-service lines 450-462); the argument is
optional because the JS code applies `?.toLowerCase()` to a possibly-absent
field. -/
def mapTaskStatusToJiraStatus (taskStatus : Option String) : String :=
  match taskStatus with
  | none => "To Do"
  | some s =>
    match strToLower s with
    | "pending" => "To Do"
    | "in_progress" => "In Progress"
    | "in-progress" => "In Progress"
    | "review" => "Review"
    | "done" => "Done"
    | "completed" => "Done"
    | "cancelled" => "Done"
    | _ => "To Do"

/-- `mapTaskPriorityToJiraPriority` (jira-service lines 416-426). -/
def mapTaskPriorityToJiraPriority (taskPriority : Option String) : String :=
  match taskPriority with
  | none => "Medium"
  | some s =>
    match strToLower s with
    | "highest" => "Highest"
    | "high" => "High"
    | "medium" => "Medium"
    | "low" => "Low"
    | "lowest" => "Lowest"
    | _ => "Medium"

/-! ## Sync lock table

`this.syncLocks` is a JS `Set` of string keys.  We model it as a
`List String` with the JS `Set` operations: `add` is a no-op when the key is
already present, `delete` removes the key (idempotent). -/

/-- JS `Set.add`. -/
def jsSetAdd (s : List String) (k : String) : List String :=
  if s.contains k then s else s ++ [k]

/-- JS `Set.delete` (idempotent). -/
def jsSetDelete (s : List String) (k : String) : List String :=
  s.filter (fun x => x ≠ k)

/-- Effect of one complete invocation of `handleTagUpdate` (handler lines
41-78) on the lock set.  Paths: disabled or lock already held → early
`return` at line 44, after which the `finally` at line 76 still deletes the
key; otherwise the key is added (line 47), the body runs — it never touches
`syncLocks`, whether it completes, hits the empty-syncable early return
(line 55), or raises into the `catch` — and the `finally` deletes the key. -/
def handleTagUpdateLocks (syncEnabled : Bool) (locks : List String)
    (tagName : String) (bodyRaises : Bool) : List String :=
  let key := "tag:" ++ tagName
  if !syncEnabled || locks.contains key then
    jsSetDelete locks key
  else
    let held := jsSetAdd locks key
    if bodyRaises then jsSetDelete held key else jsSetDelete held key

/-- Effect of one complete invocation of `handleTaskUpdate` (handler lines
85-122) on the lock set; `syncable` selects the not-syncable early return at
line 97, which also falls through the `finally` at line 120. -/
def handleTaskUpdateLocks (syncEnabled : Bool) (locks : List String)
    (taskId : String) (syncable : Bool) (bodyRaises : Bool) : List String :=
  let key := "task:" ++ taskId
  if !syncEnabled || locks.contains key then
    jsSetDelete locks key
  else
    let held := jsSetAdd locks key
    if !syncable then jsSetDelete held key
    else if bodyRaises then jsSetDelete held key
    else jsSetDelete held key

/-- Effect of one complete invocation of `handleJiraIssueUpdate` (handler
lines 128-152) on the lock set.  Its lock key is `jira:<issue.key>`
(lines 133, 137, 150).  The `!this.syncEnabled` return at line 130 and the
`!taskId || held` return at line 134 are inside the `try`, so the `finally`
at line 150 still deletes the key on those paths. -/
def handleJiraIssueUpdateLocks (syncEnabled : Bool) (locks : List String)
    (issueKey : String) (taskIdExtracted : Bool) (bodyRaises : Bool) :
    List String :=
  let key := "jira:" ++ issueKey
  if !syncEnabled then
    jsSetDelete locks key
  else if !taskIdExtracted || locks.contains key then
    jsSetDelete locks key
  else
    let held := jsSetAdd locks key
    if bodyRaises then jsSetDelete held key else jsSetDelete held key

/-! ## Interleaving model for concurrent tag syncs (claim about mutual
exclusion)

The JS runtime is single-threaded: lines 43-47 of `handleTagUpdate` (the
lock check and `add`) run atomically at invocation start, with no `await`
between them; an early `return` at line 44 runs the `finally` (line 76)
synchronously in the same turn; only the `await`s in the body (lines 62-67)
yield, letting other invocations start.  So a concurrent run is a sequence
of atomic events: `start` (prologue; either the loser path check+return+
finally, or acquire+begin batch work) and `finish` (winner body ends,
`finally` deletes the key). -/

structure TagSyncRun where
  locks : List String
  /-- invocation ids that passed the lock check and began the batch work. -/
  workers : List Nat
deriving Repr, DecidableEq

inductive TagSyncEvent where
  /-- an invocation of `handleTagUpdate` enters (sync enabled). -/
  | start (inv : Nat) (tag : String)
  /-- the body of a previously started invocation completes (or raises);
  the `finally` deletes the key. -/
  | finish (inv : Nat) (tag : String)
deriving Repr, DecidableEq

def tagSyncStep (s : TagSyncRun) (e : TagSyncEvent) : TagSyncRun :=
  match e with
  | .start inv tag =>
    let key := "tag:" ++ tag
    if s.locks.contains key then
      -- loser: early return at line 44; its `finally` (line 76) deletes the
      -- key even though this invocation never added it
      { s with locks := jsSetDelete s.locks key }
    else
      { locks := jsSetAdd s.locks key, workers := s.workers ++ [inv] }
  | .finish _ tag =>
    { s with locks := jsSetDelete s.locks ("tag:" ++ tag) }

def tagSyncRun (es : List TagSyncEvent) : TagSyncRun :=
  es.foldl tagSyncStep ⟨[], []⟩

/-! ## Reverse sync: `updateTaskMasterTask` (handler lines 205-258)

The persisted `tasks.json` structure: an optional `master` tag entry with a
task list, an optional legacy top-level `tasks` list, any number of other
tag entries, and a `metadata` object with an `updated` timestamp. -/

structure IssueFields where
  summary : Option String := none
  description : Option String := none
  /-- `fields.status.name` when the nested objects are present. -/
  statusName : Option String := none
  /-- `fields.priority.name` when the nested objects are present. -/
  priorityName : Option String := none
deriving Repr, DecidableEq

structure IssueData where
  key : String := ""
  fields : Option IssueFields := none
deriving Repr, DecidableEq

structure Store where
  /-- `tasksData.master?.tasks` collapsed: `none` when either the `master`
  entry or its `tasks` list is absent. -/
  master : Option (List Task) := none
  /-- top-level `tasksData.tasks`. -/
  topTasks : Option (List Task) := none
  /-- every other tag entry, in order. -/
  others : List (String × List Task) := []
  /-- `tasksData.metadata.updated`. -/
  metadataUpdated : Option String := none
deriving Repr, DecidableEq

/-- Line 223-225: `if (fields?.summary && fields.summary !== task.title)`. -/
def reconcileTitle (t : Task) (fs : IssueFields) : Task :=
  if truthyS fs.summary && (fs.summary != t.title) then
    { t with title := fs.summary }
  else t

/-- Lines 227-229. -/
def reconcileDescription (t : Task) (fs : IssueFields) : Task :=
  if truthyS fs.description && (fs.description != t.description) then
    { t with description := fs.description }
  else t

/-- Lines 231-236: map the tracker status name, write only when the mapped
value differs from the current task status. -/
def reconcileStatus (t : Task) (fs : IssueFields) : Task :=
  if truthyS fs.statusName then
    let mapped := mapJiraStatusToTaskStatus (fs.statusName.getD "")
    if (some mapped) != t.status then { t with status := some mapped } else t
  else t

/-- Lines 238-243. -/
def reconcilePriority (t : Task) (fs : IssueFields) : Task :=
  if truthyS fs.priorityName then
    let mapped := mapJiraPriorityToTaskPriority (fs.priorityName.getD "")
    if (some mapped) != t.priority then { t with priority := some mapped } else t
  else t

/-- The straight-line field reconciliation block, lines 223-243
(`issueData.fields?.` — an absent `fields` object skips every branch). -/
def applyIssueFields (t : Task) (fsOpt : Option IssueFields) : Task :=
  let fs := fsOpt.getD {}
  reconcilePriority (reconcileStatus (reconcileDescription (reconcileTitle t fs) fs) fs) fs

/-- Lines 213-220 applied to one candidate list: find the task by id
(string comparison of `toString()`-normalised ids) and rewrite exactly that
entry in place. -/
def updateTasksList (l : List Task) (taskId : String) (issue : IssueData) :
    Option (List Task) :=
  match l.findIdx? (fun t => t.id == taskId) with
  | none => none
  | some i => some (l.set i (applyIssueFields (l.getD i {}) issue.fields))

inductive UpdateOutcome where
  /-- line 215-218: warning logged, function returns normally, `writeFile`
  never reached — no write, no thrown error. -/
  | notFound
  /-- lines 220-250: the store as rewritten by `writeFile`. -/
  | updated (s : Store)
deriving Repr, DecidableEq

/-- `updateTaskMasterTask` (handler lines 205-258).  The candidate list is
`tasksData.master?.tasks || tasksData.tasks || []` (line 212); the in-place
mutation of the found task lands inside whichever of the two lists was
selected, `metadata.updated` is set to the current time (lines 246-247), and
the whole structure is written back (line 250). -/
def updateTaskMasterTask (store : Store) (taskId : String) (issue : IssueData)
    (now : String) : UpdateOutcome :=
  match store.master with
  | some l =>
    match updateTasksList l taskId issue with
    | none => .notFound
    | some nl =>
      .updated { store with master := some nl, metadataUpdated := some now }
  | none =>
    match store.topTasks with
    | some l =>
      match updateTasksList l taskId issue with
      | none => .notFound
      | some nl =>
        .updated { store with topTasks := some nl, metadataUpdated := some now }
    | none => .notFound

/-! ## Jira service: update payloads (jira-service lines 160-186, 376-392) -/

/-- The partial-update payload object built by `mapTaskUpdatesToJiraFields`.
It starts as `{}`; the code conditionally assigns `summary`, `description`
and `priority`, and never assigns any other property — in particular no
status property exists on this object. -/
structure JiraUpdateFields where
  summary : Option String := none
  description : Option String := none
  priority : Option String := none
  status : Option String := none
deriving Repr, DecidableEq

/-- `mapTaskUpdatesToJiraFields` (jira-service lines 376-392). -/
def mapTaskUpdatesToJiraFields (t : Task) : JiraUpdateFields :=
  let f0 : JiraUpdateFields := {}
  let f1 :=
    if truthyS (jsOr t.title t.summary) then
      { f0 with summary := jsOr t.title t.summary }
    else f0
  let f2 :=
    if truthyS (jsOr t.description t.details) then
      { f1 with description := jsOr t.description t.details }
    else f1
  if truthyS t.priority then
    { f2 with priority := some (mapTaskPriorityToJiraPriority t.priority) }
  else f2

/-- Calls issued to the tracker by the engine, in order. -/
inductive TrackerCall where
  | update (issueKey : String) (fields : JiraUpdateFields)
  | transition (issueKey : String) (transitionName : String)
deriving Repr, DecidableEq

/-- `updateJiraIssueFromTask` (jira-service lines 160-186): one partial
update call, then — only when `taskData.status` is truthy — a separate
status-transition call through `updateJiraIssueStatus` (lines 433-443),
which maps the status via `mapTaskStatusToJiraStatus`. -/
def updateJiraIssueFromTask (issueKey : String) (t : Task) : List TrackerCall :=
  TrackerCall.update issueKey (mapTaskUpdatesToJiraFields t) ::
    (if truthyS t.status then
      [TrackerCall.transition issueKey (mapTaskStatusToJiraStatus t.status)]
    else [])

/-! ## Jira service: issue lookup and creation (jira-service lines 121-153,
193-215, 341-351) and `syncTaskToJira` (handler lines 177-198) -/

/-- A tracker issue as the engine sees it: its key and the custom
cross-reference field holding the originating task id (`taskMasterId`,
jira-service line 145 stores `taskData.id` there at creation). -/
structure JiraIssue where
  key : String
  taskMasterId : String
deriving Repr, DecidableEq

/-- Tracker-side state: the list of issues, in creation order. -/
structure TrackerState where
  issues : List JiraIssue := []
deriving Repr, DecidableEq

/-- `findJiraIssueForTask` (jira-service lines 193-215): a JQL search for
the custom field matching the task id, limit 1 — modelled as the first
issue whose cross-reference equals the id. -/
def findJiraIssueForTask (st : TrackerState) (taskId : String) :
    Option JiraIssue :=
  st.issues.find? (fun i => i.taskMasterId == taskId)

/-- `extractProjectKeyFromTags` (jira-service lines 341-351).  Unlike the
handler variant this keeps scanning when a `cc-dev:` tag has fewer than two
colon-segments, and yields `none` (not a default) when the list is
exhausted. -/
def extractProjectKeyFromTags : List String → Option String
  | [] => none
  | tag :: rest =>
    if strStartsWith tag "cc-dev:" then
      let parts := strSplitOnColon tag
      if 2 ≤ parts.length then some (strToUpper (parts.getD 1 ""))
      else extractProjectKeyFromTags rest
    else extractProjectKeyFromTags rest

/-- `createJiraIssueFromTask` (jira-service lines 121-153): throws when no
project key can be extracted from the tags (lines 128-131); otherwise the
tracker creates an issue — its fresh key is supplied by the tracker, here a
parameter — carrying the task id in the cross-reference custom field, and
the new issue is appended to the tracker state. -/
def createJiraIssueFromTask (st : TrackerState) (task : Task)
    (newKey : String) : Except String (TrackerState × JiraIssue) :=
  match extractProjectKeyFromTags (task.tags.getD []) with
  | none => .error "No project key found in task tags"
  | some _ =>
    let issue : JiraIssue := { key := newKey, taskMasterId := task.id }
    .ok ({ issues := st.issues ++ [issue] }, issue)

/-- Handler lines 187-193: when a project-key override is supplied and no
existing tag mentions its lower-cased form, push `cc-dev:<key>` onto the
task's tag list (materialising the list first: `tags = tags || []`). -/
def addProjectTag (task : Task) (projectKey : Option String) : Task :=
  match projectKey with
  | none => task
  | some pk =>
    let tags := task.tags.getD []
    if tags.any (fun tag => jsIncludes tag (strToLower pk)) then
      { task with tags := some tags }
    else
      { task with tags := some (tags ++ ["cc-dev:" ++ strToLower pk]) }

/-- What a single `syncTaskToJira` run did to the tracker. -/
inductive SyncAction where
  | updatedIssue (key : String)
  | createdIssue (key : String)
deriving Repr, DecidableEq

/-- `syncTaskToJira` (handler lines 177-198): look up an existing issue by
cross-reference; update it when found, otherwise (optionally tagging the
task with the override project key) create a new one. -/
def syncTaskToJira (st : TrackerState) (task : Task)
    (projectKey : Option String) (newKey : String) :
    Except String (TrackerState × SyncAction) :=
  match findJiraIssueForTask st task.id with
  | some existing => .ok (st, .updatedIssue existing.key)
  | none =>
    let task2 := addProjectTag task projectKey
    match createJiraIssueFromTask st task2 newKey with
    | .error e => .error e
    | .ok (st2, issue) => .ok (st2, .createdIssue issue.key)

/-! ## Tag sync batch behaviour (handler lines 41-78 and 160-170) -/

/-- Result of attempting one task inside `syncProjectTasks`. -/
inductive AttemptResult where
  | ok (taskId : String)
  /-- the per-task `catch` at lines 166-168 logged the error and the loop
  continued. -/
  | failed (taskId : String)
deriving Repr, DecidableEq

/-- `syncProjectTasks` (handler lines 160-170): each task is attempted; a
throw from `syncTaskToJira` is caught inside the loop body, so the
remaining tasks are still attempted.  `attempt` abstracts the fallible
tracker interaction for one task. -/
def syncProjectTasksGo (tasks : List Task)
    (attempt : Task → Except String Unit) : List AttemptResult :=
  match tasks with
  | [] => []
  | t :: ts =>
    match attempt t with
    | .ok _ => .ok t.id :: syncProjectTasksGo ts attempt
    | .error _ => .failed t.id :: syncProjectTasksGo ts attempt

/-- Events emitted by `handleTagUpdate`. -/
inductive TagEvent where
  | tagSynced (tagName : String) (taskCount : Nat)
  | tagSyncError (tagName : String)
deriving Repr, DecidableEq

/-- The body of `handleTagUpdate` past the lock prologue (handler lines
51-70): filter to syncable tasks (empty → silent no-op), group by project,
run `syncProjectTasks` per group — its per-task `catch` means the group loop
itself never throws — then emit `tag:synced` carrying
`syncableTasks.length`.  Returns the per-task attempt log and the emitted
events. -/
def handleTagUpdateBatch (tagName : String) (tasks : List Task)
    (attempt : Task → Except String Unit) :
    List AttemptResult × List TagEvent :=
  let syncableTasks := filterSyncableTasks tasks
  if syncableTasks.isEmpty then ([], [])
  else
    let tasksByProject := groupTasksByProject syncableTasks
    let attempts :=
      (tasksByProject.map (fun g => syncProjectTasksGo g.2 attempt)).flatten
    (attempts, [.tagSynced tagName syncableTasks.length])

/-! ## Helper lemmas -/

theorem mem_jsSetDelete {s : List String} {k x : String} :
    x ∈ jsSetDelete s k ↔ x ∈ s ∧ x ≠ k := by
  simp [jsSetDelete]

theorem not_mem_jsSetDelete_self {s : List String} {k : String} :
    k ∉ jsSetDelete s k := by
  simp [mem_jsSetDelete]

/-! ## C2: `shouldSyncTask` -/

/-- C2.  `isSyncable` / `shouldSyncTask` is false when the task has no tags
collection or an empty one, and is true iff at least one tag has prefix
`cc-dev:`, `atlassian:` or `jira:`.  (The function is total, so it never
throws.) -/
theorem shouldSyncTask_spec (t : Task) :
    (t.tags = none → shouldSyncTask t = false)
    ∧ (t.tags = some [] → shouldSyncTask t = false)
    ∧ (shouldSyncTask t = true ↔
        ∃ l, t.tags = some l ∧ ∃ tag, tag ∈ l ∧
          (strStartsWith tag "cc-dev:" = true ∨ strStartsWith tag "atlassian:" = true
            ∨ strStartsWith tag "jira:" = true)) := by
  refine ⟨fun h => by simp [shouldSyncTask, h], fun h => by simp [shouldSyncTask, h], ?_⟩
  cases h : t.tags with
  | none =>
    simp [shouldSyncTask, h]
  | some l =>
    simp only [shouldSyncTask, h, List.any_eq_true, syncableTag, Option.some.injEq]
    constructor
    · rintro ⟨tag, htag, hpre⟩
      exact ⟨l, rfl, tag, htag, by
        rcases Bool.or_eq_true_iff.mp hpre with h1 | h2
        · rcases Bool.or_eq_true_iff.mp h1 with h1a | h1b
          · exact Or.inl h1a
          · exact Or.inr (Or.inl h1b)
        · exact Or.inr (Or.inr h2)⟩
    · rintro ⟨l', hl', tag, htag, hpre⟩
      cases hl'
      refine ⟨tag, htag, ?_⟩
      rcases hpre with h1 | h2 | h3
      · simp [h1]
      · simp [h2]
      · simp [h3]

/-- Witness for C2 at concrete inputs: a task with no tags collection is not
syncable; a task tagged `jira:x` is. -/
theorem shouldSyncTask_spec_witness :
    shouldSyncTask { id := "a" } = false
    ∧ shouldSyncTask { id := "b", tags := some ["misc", "jira:x"] } = true := by
  refine ⟨(shouldSyncTask_spec { id := "a" }).1 rfl, ?_⟩
  exact (shouldSyncTask_spec { id := "b", tags := some ["misc", "jira:x"] }).2.2.mpr
    ⟨["misc", "jira:x"], rfl, "jira:x", by decide, Or.inr (Or.inr (by decide))⟩

/-! ## C6: status round-trip -/

/-- C6.  Mapping a task status Task→Tracker (`mapTaskStatusToJiraStatus`)
then Tracker→Task (`mapJiraStatusToTaskStatus`) returns the original status
for `pending`, `in_progress`, `review` and `completed`; `cancelled` maps
through to `completed` (lossy by design), not back to `cancelled`. -/
theorem status_roundTrip :
    mapJiraStatusToTaskStatus (mapTaskStatusToJiraStatus (some "pending")) = "pending"
    ∧ mapJiraStatusToTaskStatus (mapTaskStatusToJiraStatus (some "in_progress")) = "in_progress"
    ∧ mapJiraStatusToTaskStatus (mapTaskStatusToJiraStatus (some "review")) = "review"
    ∧ mapJiraStatusToTaskStatus (mapTaskStatusToJiraStatus (some "completed")) = "completed"
    ∧ mapJiraStatusToTaskStatus (mapTaskStatusToJiraStatus (some "cancelled")) = "completed"
    ∧ mapJiraStatusToTaskStatus (mapTaskStatusToJiraStatus (some "cancelled")) ≠ "cancelled" := by
  decide

/-! ## C1: lock release on every exit path -/

/-- C1 counterexample.  The reverse-sync entry point's lock key is
`jira:<issue.key>`, not `issue:<issue.key>` as the claim states: a full
normal-path invocation of `handleJiraIssueUpdate` for issue `PROJ-1` leaves
a pre-existing key `issue:PROJ-1` in the lock set untouched (it only ever
adds and removes `jira:PROJ-1`). -/
theorem handleJiraIssueUpdate_issue_key_not_removed :
    "issue:PROJ-1" ∈
      handleJiraIssueUpdateLocks true ["issue:PROJ-1"] "PROJ-1" true false := by
  decide

/-- C1 (amended: the reverse-sync lock key is `jira:<key>`, not
`issue:<key>`).  Every sync entry point removes its lock key — `tag:<name>`,
`task:<id>`, `jira:<key>` respectively — before returning, on every exit
path: disabled engine, lock already held, not-syncable/no-task-id early
returns, body errors, and normal completion alike; after any invocation
returns, the key it acquired is no longer in the lock set. -/
theorem syncLocks_released_all_paths (syncEnabled : Bool) (locks : List String)
    (tagName taskId issueKey : String)
    (syncable taskIdExtracted bodyRaises : Bool) :
    ("tag:" ++ tagName) ∉ handleTagUpdateLocks syncEnabled locks tagName bodyRaises
    ∧ ("task:" ++ taskId) ∉
        handleTaskUpdateLocks syncEnabled locks taskId syncable bodyRaises
    ∧ ("jira:" ++ issueKey) ∉
        handleJiraIssueUpdateLocks syncEnabled locks issueKey taskIdExtracted bodyRaises := by
  refine ⟨?_, ?_, ?_⟩ <;>
    simp only [handleTagUpdateLocks, handleTaskUpdateLocks,
      handleJiraIssueUpdateLocks] <;>
    split_ifs <;> exact not_mem_jsSetDelete_self

/-! ## C9: concurrent tag syncs for the same tag -/

/-- C9.  Evaluation of the lock protocol at the failing schedule: three
overlapping invocations of `handleTagUpdate` for the same tag `master`.
After invocation 1 acquires `tag:master` and yields at an `await`,
invocation 2 loses the lock check and returns early — but its `finally`
deletes `tag:master` from the lock set (second component: the lock set is
empty while invocation 1 is still in flight, so the loser does have a side
effect).  Invocation 3 then passes the lock check and performs the batch
work concurrently with invocation 1 (first component: two workers, `[1, 3]`,
with no `finish` event for invocation 1 in the schedule), contradicting
"at most one invocation per tag key ever performs the batch work". -/
theorem tagSync_lock_mutex_violated :
    (tagSyncRun [.start 1 "master", .start 2 "master", .start 3 "master"]).workers
      = [1, 3]
    ∧ (tagSyncRun [.start 1 "master", .start 2 "master"]).locks = [] := by
  decide

/-! ## C8: project-key extraction and grouping -/

theorem lookupGroup_nil {k : String} : lookupGroup [] k = [] := rfl

theorem lookupGroup_cons (k' : String) (ts : List Task)
    (rest : List (String × List Task)) (k : String) :
    lookupGroup ((k', ts) :: rest) k =
      if k' = k then ts else lookupGroup rest k := by
  by_cases h : k' = k
  · simp only [lookupGroup]
    rw [List.find?_cons_of_pos _ (by simp [h])]
    simp [h]
  · simp only [lookupGroup]
    rw [List.find?_cons_of_neg _ (by simp [h])]
    simp [h]

theorem lookupGroup_addToGroup_self (gs : List (String × List Task))
    (k : String) (t : Task) :
    lookupGroup (addToGroup gs k t) k = lookupGroup gs k ++ [t] := by
  induction gs with
  | nil => simp [addToGroup, lookupGroup_cons, lookupGroup_nil]
  | cons g rest ih =>
    obtain ⟨k', ts⟩ := g
    by_cases h : k' = k
    · subst h
      simp [addToGroup, lookupGroup_cons]
    · simp [addToGroup, h, lookupGroup_cons, ih]

theorem lookupGroup_addToGroup_ne (gs : List (String × List Task))
    (k k' : String) (t : Task) (h : k' ≠ k) :
    lookupGroup (addToGroup gs k' t) k = lookupGroup gs k := by
  induction gs with
  | nil => simp [addToGroup, lookupGroup_cons, lookupGroup_nil, h]
  | cons g rest ih =>
    obtain ⟨k'', ts⟩ := g
    by_cases h2 : k'' = k'
    · subst h2
      simp [addToGroup, lookupGroup_cons, h]
    · simp [addToGroup, h2, lookupGroup_cons, ih]

theorem lookupGroup_foldl_groupStep (k : String) (hk : k ≠ "") :
    ∀ (ts : List Task) (gs : List (String × List Task)),
      lookupGroup (ts.foldl groupStep gs) k =
        lookupGroup gs k ++
          ts.filter (fun t => extractProjectKeyFromTask t == some k) := by
  intro ts
  induction ts with
  | nil => simp
  | cons t rest ih =>
    intro gs
    rw [List.foldl_cons, ih (groupStep gs t)]
    have hstep : lookupGroup (groupStep gs t) k =
        lookupGroup gs k ++
          (if extractProjectKeyFromTask t == some k then [t] else []) := by
      unfold groupStep
      cases h : extractProjectKeyFromTask t with
      | none => simp
      | some pk =>
        by_cases hpk : pk = ""
        · subst hpk
          have : ¬ (some "" == some k) = true := by
            simp [Ne.symm hk]
          simp [this]
        · by_cases hpkk : pk = k
          · subst hpkk
            simp [hpk, lookupGroup_addToGroup_self]
          · simp [hpk, hpkk, lookupGroup_addToGroup_ne gs k pk t hpkk]
    rw [hstep]
    by_cases h : (extractProjectKeyFromTask t == some k) = true
    · simp [h, List.filter_cons]
    · simp only [Bool.not_eq_true] at h
      simp [h, List.filter_cons]

/-- C8 counterexample.  A task with no tags collection at all yields no
project key (JS `null`, line 364 of the handler), not the default `ADAPT`
the claim asserts. -/
theorem extractProjectKey_noTags_counterexample :
    extractProjectKeyFromTask { id := "t1" } = none
    ∧ extractProjectKeyFromTask { id := "t1" } ≠ some "ADAPT" := by
  decide

/-- C8 (amended: the default `ADAPT` applies only when the task has a tags
collection; with no tags collection the result is `null`, i.e. no project
key).  `extractProjectKeyFromTask` scans tags in order and the first
`cc-dev:` tag yields its second colon-segment upper-cased; a task whose
tags collection has no `cc-dev:` tag gets `ADAPT`; a task with no tags
collection gets none; and grouping assigns every task whose tags collection
has no `cc-dev:` tag (in particular every syncable such task) to the
`ADAPT` group. -/
theorem extractProjectKey_amended :
    (∀ (task : Task) (pre rest : List String) (tag : String),
      task.tags = some (pre ++ tag :: rest) →
      (∀ t ∈ pre, strStartsWith t "cc-dev:" = false) →
      strStartsWith tag "cc-dev:" = true →
      extractProjectKeyFromTask task = ((strSplitOnColon tag).get? 1).map strToUpper)
    ∧ (∀ (task : Task) (l : List String),
      task.tags = some l →
      (∀ t ∈ l, strStartsWith t "cc-dev:" = false) →
      extractProjectKeyFromTask task = some "ADAPT")
    ∧ (∀ task : Task, task.tags = none → extractProjectKeyFromTask task = none)
    ∧ (∀ (tasks : List Task) (t : Task) (l : List String),
      t ∈ tasks → t.tags = some l →
      (∀ tg ∈ l, strStartsWith tg "cc-dev:" = false) →
      t ∈ lookupGroup (groupTasksByProject tasks) "ADAPT") := by
  have key_scan : ∀ (pre rest : List String) (tag : String),
      (∀ t ∈ pre, strStartsWith t "cc-dev:" = false) →
      strStartsWith tag "cc-dev:" = true →
      projectKeyScan (pre ++ tag :: rest) =
        ((strSplitOnColon tag).get? 1).map strToUpper := by
    intro pre rest tag hpre htag
    induction pre with
    | nil => simp [projectKeyScan, htag]
    | cons p ps ih =>
      have hp := hpre p (by simp)
      rw [List.cons_append, projectKeyScan, hp]
      · simp only [Bool.false_eq_true, if_false]
        exact ih (fun t ht => hpre t (by simp [ht]))
  have key_default : ∀ l : List String,
      (∀ t ∈ l, strStartsWith t "cc-dev:" = false) →
      projectKeyScan l = some "ADAPT" := by
    intro l hl
    induction l with
    | nil => rfl
    | cons p ps ih =>
      rw [projectKeyScan, hl p (by simp)]
      simp only [Bool.false_eq_true, if_false]
      exact ih (fun t ht => hl t (by simp [ht]))
  refine ⟨?_, ?_, ?_, ?_⟩
  · intro task pre rest tag htags hpre htag
    rw [extractProjectKeyFromTask, htags]
    exact key_scan pre rest tag hpre htag
  · intro task l htags hl
    rw [extractProjectKeyFromTask, htags]
    exact key_default l hl
  · intro task htags
    rw [extractProjectKeyFromTask, htags]
  · intro tasks t l hmem htags hl
    have hkey : extractProjectKeyFromTask t = some "ADAPT" := by
      rw [extractProjectKeyFromTask, htags]
      exact key_default l hl
    rw [groupTasksByProject,
      lookupGroup_foldl_groupStep "ADAPT" (by decide) tasks []]
    simp [List.mem_filter, hmem, hkey]

/-- Witness for C8's amended theorem at a concrete input: a syncable task
tagged only `jira:x` gets project key `ADAPT` and lands in the `ADAPT`
group. -/
theorem extractProjectKey_amended_witness :
    extractProjectKeyFromTask { id := "1", tags := some ["jira:x"] } = some "ADAPT"
    ∧ ({ id := "1", tags := some ["jira:x"] } : Task) ∈
        lookupGroup
          (groupTasksByProject [{ id := "1", tags := some ["jira:x"] }]) "ADAPT" :=
  ⟨extractProjectKey_amended.2.1 _ ["jira:x"] rfl (by decide),
   extractProjectKey_amended.2.2.2 _ _ ["jira:x"] (by simp) rfl (by decide)⟩

/-! ## C3: per-task failure isolation in tag sync -/

/-- The task id an attempt record is about, whether it succeeded or
failed. -/
def attemptedId : AttemptResult → String
  | .ok i => i
  | .failed i => i

theorem attempted_of_mem (ts : List Task) (attempt : Task → Except String Unit)
    (t : Task) (h : t ∈ ts) :
    t.id ∈ (syncProjectTasksGo ts attempt).map attemptedId := by
  induction ts with
  | nil => cases h
  | cons hd rest ih =>
    rcases List.mem_cons.mp h with h1 | h2 <;>
      cases hA : attempt hd <;>
      simp_all [syncProjectTasksGo, attemptedId]

/-- C3.  During tag sync, a per-task error is caught inside the
`syncProjectTasks` loop, so every task of every project group is attempted
regardless of which attempts fail (first conjunct: for an arbitrary failure
oracle `attempt`, every task of every group appears in the attempt log) and
the `tag:synced` completion signal carries the count of syncable tasks
(second conjunct). -/
theorem tagSync_isolates_task_failures (tagName : String) (tasks : List Task)
    (attempt : Task → Except String Unit) :
    (∀ g ∈ groupTasksByProject (filterSyncableTasks tasks), ∀ t ∈ g.2,
      t.id ∈ (handleTagUpdateBatch tagName tasks attempt).1.map attemptedId)
    ∧ (filterSyncableTasks tasks ≠ [] →
      (handleTagUpdateBatch tagName tasks attempt).2 =
        [.tagSynced tagName (filterSyncableTasks tasks).length]) := by
  unfold handleTagUpdateBatch
  by_cases hE : (filterSyncableTasks tasks).isEmpty
  · rw [List.isEmpty_iff] at hE
    refine ⟨?_, fun hne => absurd hE hne⟩
    intro g hg
    rw [hE] at hg
    simp [groupTasksByProject] at hg
  · rw [if_neg (by simp [hE])]
    refine ⟨?_, fun _ => rfl⟩
    intro g hg t ht
    have hmem := attempted_of_mem g.2 attempt t ht
    simp only [List.map_flatten]
    rw [List.mem_flatten]
    refine ⟨(syncProjectTasksGo g.2 attempt).map attemptedId, ?_, hmem⟩
    simp only [List.map_map]
    exact List.mem_map.mpr ⟨g, hg, rfl⟩

/-- Witness for C3 at a concrete batch: two syncable tasks in one group,
the first one failing; the second is still attempted and the completion
signal carries count 2. -/
theorem tagSync_isolates_task_failures_witness :
    ({ id := "2", tags := some ["jira:a"] } : Task).id ∈
      ((handleTagUpdateBatch "master"
          [{ id := "1", tags := some ["jira:a"] },
            { id := "2", tags := some ["jira:a"] }]
          (fun t => if t.id == "1" then .error "boom" else .ok ())).1.map
        attemptedId)
    ∧ (handleTagUpdateBatch "master"
          [{ id := "1", tags := some ["jira:a"] },
            { id := "2", tags := some ["jira:a"] }]
          (fun t => if t.id == "1" then .error "boom" else .ok ())).2 =
        [.tagSynced "master" 2] :=
  ⟨(tagSync_isolates_task_failures "master"
        [{ id := "1", tags := some ["jira:a"] },
          { id := "2", tags := some ["jira:a"] }]
        (fun t => if t.id == "1" then .error "boom" else .ok ())).1
      ("ADAPT",
        [{ id := "1", tags := some ["jira:a"] },
          { id := "2", tags := some ["jira:a"] }])
      (by decide) { id := "2", tags := some ["jira:a"] } (by decide),
   (tagSync_isolates_task_failures "master"
        [{ id := "1", tags := some ["jira:a"] },
          { id := "2", tags := some ["jira:a"] }]
        (fun t => if t.id == "1" then .error "boom" else .ok ())).2
      (by decide)⟩

/-! ## C4: idempotence of task sync -/

theorem find?_append_of_none {α : Type} (p : α → Bool) (l1 l2 : List α)
    (h : l1.find? p = none) : (l1 ++ l2).find? p = l2.find? p := by
  induction l1 with
  | nil => simp
  | cons a l ih =>
    cases hpa : p a with
    | true => rw [List.find?_cons_of_pos _ hpa] at h; cases h
    | false =>
      rw [List.find?_cons_of_neg _ (by simp [hpa])] at h
      rw [List.cons_append, List.find?_cons_of_neg _ (by simp [hpa])]
      exact ih h

theorem addProjectTag_id (task : Task) (pk : Option String) :
    (addProjectTag task pk).id = task.id := by
  unfold addProjectTag
  cases pk with
  | none => rfl
  | some p => dsimp only; split <;> rfl

/-- C4.  Running `syncTaskToJira` twice in sequence for the same task, with
no intervening tracker-side change, does not create a second tracker issue:
provided no issue for the task exists initially and issue creation can
determine a project key, the first run appends exactly one issue carrying
the task id in its cross-reference field, and the second run finds that
issue and takes the update path, leaving the tracker state unchanged. -/
theorem syncTaskToJira_idempotent (st0 : TrackerState) (task : Task)
    (pk : Option String) (k1 k2 : String)
    (h0 : findJiraIssueForTask st0 task.id = none)
    (hpk : (extractProjectKeyFromTags
      ((addProjectTag task pk).tags.getD [])).isSome = true) :
    syncTaskToJira st0 task pk k1 =
      .ok ({ issues := st0.issues ++ [{ key := k1, taskMasterId := task.id }] },
        .createdIssue k1)
    ∧ syncTaskToJira
        { issues := st0.issues ++ [{ key := k1, taskMasterId := task.id }] }
        task pk k2 =
      .ok ({ issues := st0.issues ++ [{ key := k1, taskMasterId := task.id }] },
        .updatedIssue k1) := by
  obtain ⟨v, hv⟩ := Option.isSome_iff_exists.mp hpk
  constructor
  · simp only [syncTaskToJira, createJiraIssueFromTask, h0, hv,
      addProjectTag_id]
  · have hfind : findJiraIssueForTask
        { issues := st0.issues ++ [{ key := k1, taskMasterId := task.id }] }
        task.id = some { key := k1, taskMasterId := task.id } := by
      rw [findJiraIssueForTask]
      rw [find?_append_of_none _ _ _ h0]
      exact List.find?_cons_of_pos _ (by simp)
    simp only [syncTaskToJira, hfind]

/-- Witness for C4 at a concrete input: task `7` tagged `cc-dev:proj`,
empty initial tracker state. -/
theorem syncTaskToJira_idempotent_witness :
    syncTaskToJira {} { id := "7", tags := some ["cc-dev:proj"] } none "AD-1" =
      .ok ({ issues := [{ key := "AD-1", taskMasterId := "7" }] },
        .createdIssue "AD-1")
    ∧ syncTaskToJira { issues := [{ key := "AD-1", taskMasterId := "7" }] }
        { id := "7", tags := some ["cc-dev:proj"] } none "AD-2" =
      .ok ({ issues := [{ key := "AD-1", taskMasterId := "7" }] },
        .updatedIssue "AD-1") :=
  syncTaskToJira_idempotent {} { id := "7", tags := some ["cc-dev:proj"] }
    none "AD-1" "AD-2" (by decide) (by decide)

/-! ## C7: partial-update payload -/

theorem truthyS_jsOr (a b : Option String) :
    truthyS (jsOr a b) = (truthyS a || truthyS b) := by
  cases a with
  | none => simp [jsOr, truthyS]
  | some s =>
    by_cases h : s = ""
    · subst h; simp [jsOr, truthyS]
    · simp [jsOr, truthyS, h]

/-- C7.  The partial-update payload contains exactly the subset of
{summary, description, priority} whose source value is present/non-empty on
the task — summary from the `title || summary` fallback, description from
`description || details`, priority mapped through
`mapTaskPriorityToJiraPriority` — and never a status field; a present task
status goes through a separate status-transition tracker call instead. -/
theorem mapTaskUpdates_payload_spec (t : Task) (issueKey : String) :
    (mapTaskUpdatesToJiraFields t).status = none
    ∧ (truthyS t.title = true ∨ truthyS t.summary = true →
        (mapTaskUpdatesToJiraFields t).summary = jsOr t.title t.summary)
    ∧ (truthyS t.title = false → truthyS t.summary = false →
        (mapTaskUpdatesToJiraFields t).summary = none)
    ∧ (truthyS t.description = true ∨ truthyS t.details = true →
        (mapTaskUpdatesToJiraFields t).description = jsOr t.description t.details)
    ∧ (truthyS t.description = false → truthyS t.details = false →
        (mapTaskUpdatesToJiraFields t).description = none)
    ∧ (truthyS t.priority = true →
        (mapTaskUpdatesToJiraFields t).priority =
          some (mapTaskPriorityToJiraPriority t.priority))
    ∧ (truthyS t.priority = false → (mapTaskUpdatesToJiraFields t).priority = none)
    ∧ (truthyS t.status = true →
        TrackerCall.transition issueKey (mapTaskStatusToJiraStatus t.status) ∈
          updateJiraIssueFromTask issueKey t)
    ∧ (truthyS t.status = false →
        updateJiraIssueFromTask issueKey t =
          [.update issueKey (mapTaskUpdatesToJiraFields t)])
    ∧ (∀ c ∈ updateJiraIssueFromTask issueKey t, ∀ (k : String)
        (fl : JiraUpdateFields), c = .update k fl → fl.status = none) := by
  have hStatus : (mapTaskUpdatesToJiraFields t).status = none := by
    unfold mapTaskUpdatesToJiraFields
    dsimp only
    split_ifs <;> rfl
  refine ⟨hStatus, ?_, ?_, ?_, ?_, ?_, ?_, ?_, ?_, ?_⟩
  · intro h
    unfold mapTaskUpdatesToJiraFields
    dsimp only
    split_ifs with h1 h2 h3 <;> simp_all [truthyS_jsOr]
  · intro h1 h2
    unfold mapTaskUpdatesToJiraFields
    dsimp only
    split_ifs <;> simp_all [truthyS_jsOr]
  · intro h
    unfold mapTaskUpdatesToJiraFields
    dsimp only
    split_ifs <;> simp_all [truthyS_jsOr]
  · intro h1 h2
    unfold mapTaskUpdatesToJiraFields
    dsimp only
    split_ifs <;> simp_all [truthyS_jsOr]
  · intro h
    unfold mapTaskUpdatesToJiraFields
    dsimp only
    split_ifs <;> simp_all
  · intro h
    unfold mapTaskUpdatesToJiraFields
    dsimp only
    split_ifs <;> simp_all
  · intro h
    unfold updateJiraIssueFromTask
    simp [h]
  · intro h
    unfold updateJiraIssueFromTask
    simp [h]
  · intro c hc k fl hcu
    subst hcu
    unfold updateJiraIssueFromTask at hc
    rcases List.mem_cons.mp hc with h | h
    · cases h
      exact hStatus
    · split at h <;> simp at h

/-- Witness for C7 at a concrete task with title `Fix`, priority `high` and
status `pending`: the payload carries no status and a status-transition
call is issued separately. -/
theorem mapTaskUpdates_payload_spec_witness :
    (mapTaskUpdatesToJiraFields
      { title := some "Fix", priority := some "high",
        status := some "pending" }).status = none
    ∧ TrackerCall.transition "K-1" (mapTaskStatusToJiraStatus (some "pending")) ∈
        updateJiraIssueFromTask "K-1"
          { title := some "Fix", priority := some "high",
            status := some "pending" } :=
  ⟨(mapTaskUpdates_payload_spec
      { title := some "Fix", priority := some "high", status := some "pending" }
      "K-1").1,
   (mapTaskUpdates_payload_spec
      { title := some "Fix", priority := some "high", status := some "pending" }
      "K-1").2.2.2.2.2.2.2.1 (by decide)⟩

/-! ## C5: reverse-sync field reconciliation and frame -/

theorem applyIssueFields_title (t : Task) (fs : IssueFields) :
    (applyIssueFields t (some fs)).title =
      if truthyS fs.summary && (fs.summary != t.title) then fs.summary
      else t.title := by
  unfold applyIssueFields reconcilePriority reconcileStatus
    reconcileDescription reconcileTitle
  simp only [Option.getD_some]
  split_ifs <;> rfl

theorem applyIssueFields_description (t : Task) (fs : IssueFields) :
    (applyIssueFields t (some fs)).description =
      if truthyS fs.description && (fs.description != t.description) then
        fs.description
      else t.description := by
  unfold applyIssueFields reconcilePriority reconcileStatus
    reconcileDescription reconcileTitle
  simp only [Option.getD_some]
  split_ifs <;> rfl

theorem applyIssueFields_status (t : Task) (fs : IssueFields) :
    (applyIssueFields t (some fs)).status =
      if truthyS fs.statusName then
        if some (mapJiraStatusToTaskStatus (fs.statusName.getD "")) != t.status
        then some (mapJiraStatusToTaskStatus (fs.statusName.getD ""))
        else t.status
      else t.status := by
  unfold applyIssueFields reconcilePriority reconcileStatus
    reconcileDescription reconcileTitle
  simp only [Option.getD_some]
  split_ifs <;> rfl

theorem applyIssueFields_priority (t : Task) (fs : IssueFields) :
    (applyIssueFields t (some fs)).priority =
      if truthyS fs.priorityName then
        if some (mapJiraPriorityToTaskPriority (fs.priorityName.getD "")) != t.priority
        then some (mapJiraPriorityToTaskPriority (fs.priorityName.getD ""))
        else t.priority
      else t.priority := by
  unfold applyIssueFields reconcilePriority reconcileStatus
    reconcileDescription reconcileTitle
  simp only [Option.getD_some]
  split_ifs <;> rfl

theorem applyIssueFields_frame (t : Task) (fsOpt : Option IssueFields) :
    (applyIssueFields t fsOpt).id = t.id
    ∧ (applyIssueFields t fsOpt).tags = t.tags
    ∧ (applyIssueFields t fsOpt).summary = t.summary
    ∧ (applyIssueFields t fsOpt).details = t.details
    ∧ (applyIssueFields t fsOpt).ttype = t.ttype := by
  unfold applyIssueFields reconcilePriority reconcileStatus
    reconcileDescription reconcileTitle
  cases fsOpt <;> simp only [Option.getD_some, Option.getD_none] <;>
    split_ifs <;> exact ⟨rfl, rfl, rfl, rfl, rfl⟩

theorem applyIssueFields_none (t : Task) : applyIssueFields t none = t := by
  unfold applyIssueFields reconcilePriority reconcileStatus
    reconcileDescription reconcileTitle
  simp [truthyS]

/-- C5.  Reverse sync overwrites a task field (title from summary,
description from description, status and priority through the
Tracker→Task mappings) only when the tracker-side value is present
(truthy) and the (mapped) value differs from the current field; the
write-back replaces exactly the found task entry inside the `master` list,
leaves every sibling task, the top-level list, and every other tag
untouched, and sets the top-level `metadata.updated` timestamp. -/
theorem updateTaskMasterTask_spec :
    (∀ (store : Store) (l : List Task) (i : Nat) (taskId now : String)
      (issue : IssueData),
      store.master = some l →
      l.findIdx? (fun t => t.id == taskId) = some i →
      updateTaskMasterTask store taskId issue now =
        .updated { store with
          master := some (l.set i (applyIssueFields (l.getD i {}) issue.fields)),
          metadataUpdated := some now })
    ∧ (∀ (l : List Task) (i j : Nat) (t' : Task), i ≠ j →
        (l.set i t').getD j {} = l.getD j {})
    ∧ (∀ (t : Task) (fs : IssueFields) (s : String),
        fs.summary = some s → s ≠ "" → t.title ≠ some s →
        (applyIssueFields t (some fs)).title = some s)
    ∧ (∀ (t : Task) (fs : IssueFields),
        truthyS fs.summary = false ∨ fs.summary = t.title →
        (applyIssueFields t (some fs)).title = t.title)
    ∧ (∀ (t : Task) (fs : IssueFields) (s : String),
        fs.description = some s → s ≠ "" → t.description ≠ some s →
        (applyIssueFields t (some fs)).description = some s)
    ∧ (∀ (t : Task) (fs : IssueFields),
        truthyS fs.description = false ∨ fs.description = t.description →
        (applyIssueFields t (some fs)).description = t.description)
    ∧ (∀ (t : Task) (fs : IssueFields) (s : String),
        fs.statusName = some s → s ≠ "" →
        t.status ≠ some (mapJiraStatusToTaskStatus s) →
        (applyIssueFields t (some fs)).status =
          some (mapJiraStatusToTaskStatus s))
    ∧ (∀ (t : Task) (fs : IssueFields),
        truthyS fs.statusName = false ∨
          t.status = some (mapJiraStatusToTaskStatus (fs.statusName.getD "")) →
        (applyIssueFields t (some fs)).status = t.status)
    ∧ (∀ (t : Task) (fs : IssueFields) (s : String),
        fs.priorityName = some s → s ≠ "" →
        t.priority ≠ some (mapJiraPriorityToTaskPriority s) →
        (applyIssueFields t (some fs)).priority =
          some (mapJiraPriorityToTaskPriority s))
    ∧ (∀ (t : Task) (fs : IssueFields),
        truthyS fs.priorityName = false ∨
          t.priority = some (mapJiraPriorityToTaskPriority (fs.priorityName.getD "")) →
        (applyIssueFields t (some fs)).priority = t.priority)
    ∧ (∀ (t : Task) (fsOpt : Option IssueFields),
        (applyIssueFields t fsOpt).id = t.id
        ∧ (applyIssueFields t fsOpt).tags = t.tags)
    ∧ (∀ t : Task, applyIssueFields t none = t) := by
  refine ⟨?_, ?_, ?_, ?_, ?_, ?_, ?_, ?_, ?_, ?_, ?_, ?_⟩
  · intro store l i taskId now issue hm hfind
    unfold updateTaskMasterTask updateTasksList
    rw [hm]
    dsimp only
    rw [hfind]
  · intro l i j t' hij
    simp [List.getD_eq_getElem?_getD, List.getElem?_set_ne hij]
  · intro t fs s hs hne hdiff
    simp [applyIssueFields_title, hs, truthyS, bne_iff_ne, hne, Ne.symm hdiff]
  · intro t fs h
    rw [applyIssueFields_title]
    rcases h with h | h
    · simp [h]
    · simp [h]
  · intro t fs s hs hne hdiff
    simp [applyIssueFields_description, hs, truthyS, bne_iff_ne, hne,
      Ne.symm hdiff]
  · intro t fs h
    rw [applyIssueFields_description]
    rcases h with h | h
    · simp [h]
    · simp [h]
  · intro t fs s hs hne hdiff
    simp [applyIssueFields_status, hs, truthyS, bne_iff_ne, hne,
      Ne.symm hdiff]
  · intro t fs h
    rw [applyIssueFields_status]
    rcases h with h | h
    · simp [h]
    · simp [h]
  · intro t fs s hs hne hdiff
    simp [applyIssueFields_priority, hs, truthyS, bne_iff_ne, hne,
      Ne.symm hdiff]
  · intro t fs h
    rw [applyIssueFields_priority]
    rcases h with h | h
    · simp [h]
    · simp [h]
  · intro t fsOpt
    exact ⟨(applyIssueFields_frame t fsOpt).1, (applyIssueFields_frame t fsOpt).2.1⟩
  · exact applyIssueFields_none

/-- Witness for C5 at a concrete store: task `2` inside the `master` list is
rewritten from issue fields (title overwritten by a differing summary), the
sibling task, the other tag and the rest of the store are untouched, and
the timestamp is set. -/
theorem updateTaskMasterTask_spec_witness :
    updateTaskMasterTask
      { master := some [{ id := "1" }, { id := "2", title := some "Old" }],
        others := [("feature", [{ id := "3" }])], metadataUpdated := some "old" }
      "2" { key := "PROJ-9", fields := some { summary := some "New" } } "now" =
      .updated
        { master := some
            ([({ id := "1" } : Task), { id := "2", title := some "Old" }].set 1
              (applyIssueFields
                ([({ id := "1" } : Task), { id := "2", title := some "Old" }].getD 1 {})
                (some { summary := some "New" }))),
          others := [("feature", [{ id := "3" }])],
          metadataUpdated := some "now" }
    ∧ (applyIssueFields { id := "2", title := some "Old" }
        (some { summary := some "New" })).title = some "New" :=
  ⟨updateTaskMasterTask_spec.1 _
      [{ id := "1" }, { id := "2", title := some "Old" }] 1 "2" "now"
      { key := "PROJ-9", fields := some { summary := some "New" } }
      rfl (by decide),
   updateTaskMasterTask_spec.2.2.1 { id := "2", title := some "Old" }
      { summary := some "New" } "New" rfl (by decide) (by decide)⟩

/-! ## C10: reverse sync only searches the master (or top-level) list -/

theorem findIdx?_start_eq_none {α : Type} (p : α → Bool) :
    ∀ l : List α, (∀ a ∈ l, p a = false) → ∀ i, List.findIdx? p l i = none := by
  intro l
  induction l with
  | nil => intro h i; rfl
  | cons a l ih =>
    intro h i
    rw [List.findIdx?_cons, h a (List.mem_cons_self a l)]
    simp only [Bool.false_eq_true, if_false]
    exact ih (fun b hb => h b (List.mem_cons_of_mem a hb)) (i + 1)

theorem findIdx?_eq_none_of_false {α : Type} (p : α → Bool) (l : List α)
    (h : ∀ a ∈ l, p a = false) : l.findIdx? p = none :=
  findIdx?_start_eq_none p l h 0

/-- C10.  Reverse sync looks the task up only in the `master` tag's task
list (or, when there is no `master` entry, the top-level `tasks` list): when
the cross-referenced task id matches nothing there — even though the task
exists under another tag of the store — the update reports not-found
(warning logged, no write performed, no error thrown). -/
theorem reverseSync_other_tag_notFound :
    (∀ (store : Store) (l ol : List Task) (taskId now otherTag : String)
      (issue : IssueData) (t0 : Task),
      store.master = some l →
      (∀ t ∈ l, (t.id == taskId) = false) →
      (otherTag, ol) ∈ store.others → t0 ∈ ol → t0.id = taskId →
      updateTaskMasterTask store taskId issue now = .notFound)
    ∧ (∀ (store : Store) (l ol : List Task) (taskId now otherTag : String)
      (issue : IssueData) (t0 : Task),
      store.master = none → store.topTasks = some l →
      (∀ t ∈ l, (t.id == taskId) = false) →
      (otherTag, ol) ∈ store.others → t0 ∈ ol → t0.id = taskId →
      updateTaskMasterTask store taskId issue now = .notFound) := by
  constructor
  · intro store l ol taskId now otherTag issue t0 hm hnone _ _ _
    unfold updateTaskMasterTask updateTasksList
    rw [hm]
    dsimp only
    rw [findIdx?_eq_none_of_false _ _ hnone]
  · intro store l ol taskId now otherTag issue t0 hm ht hnone _ _ _
    unfold updateTaskMasterTask updateTasksList
    rw [hm, ht]
    dsimp only
    rw [findIdx?_eq_none_of_false _ _ hnone]

/-- Witness for C10 at a concrete store: task `2` lives only under tag
`feature`, the `master` list holds only task `1`, and reverse sync for task
id `2` reports not-found without writing. -/
theorem reverseSync_other_tag_notFound_witness :
    updateTaskMasterTask
      { master := some [{ id := "1" }],
        others := [("feature", [{ id := "2" }])] }
      "2" { key := "PROJ-9" } "now" = .notFound :=
  reverseSync_other_tag_notFound.1
    { master := some [{ id := "1" }], others := [("feature", [{ id := "2" }])] }
    [{ id := "1" }] [{ id := "2" }] "2" "now" "feature" { key := "PROJ-9" }
    { id := "2" } rfl (by decide) (by decide) (by decide) rfl

end TaskMasterSync
